import Mathlib

/-!
Shallow embedding of the Netflix-clone Django application
(`netflixapp/models.py`, `netflixapp/views.py`).

Views are embedded as pure functions.  Each function takes the request
environment explicitly: the database contents, the requesting user, the
path parameter, and — for effects the Python runtime injects — an explicit
outcome value (the result of the outbound OMDB call, or an unexpected
exception raised inside a `try` body).  Each function returns the HTTP
response together with the list of log records it emits and, for the
movie-list view, the number of outbound HTTP requests it issued.
-/

namespace NetflixApp

/-- Log level of a `logger.warning` / `logger.error` call in `views.py`. -/
inductive LogLevel
  | warning
  | error
deriving DecidableEq, Repr

/-- One emitted log record. -/
structure LogEvent where
  level : LogLevel
  msg : String
deriving DecidableEq, Repr

/-- An opaque provider-defined title record from the OMDB `Search` array:
a JSON object, modelled as a list of key/value pairs. -/
abbrev MovieRec := List (String × String)

/-- `Profile` model (`models.py`): `name` (CharField max_length=200),
`age_limit` (CharField with AGE_CHOICES), `uuid` (UUIDField, unique).
`id` is the implicit Django primary key; UUIDs are modelled as `Nat`. -/
structure Profile where
  id : Nat
  name : String
  age_limit : String
  uuid : Nat
deriving DecidableEq, Repr

/-- `Video` model (`models.py`): `title` (unique CharField), `file`
(FileField).  `id` is the implicit Django primary key. -/
structure Video where
  id : Nat
  title : String
  file : String
deriving DecidableEq, Repr

/-- `Movie` model (`models.py`).  The many-to-many `video` field is
modelled as the list of attached `Video` rows in underlying storage
order, which is how `movie.video.values()` hands them back. -/
structure Movie where
  id : Nat
  title : String
  description : Option String
  uuid : Nat
  type : String
  video : List Video
  image : String
  age_limit : String
deriving DecidableEq, Repr

/-- `CustomUser` model (`models.py`): Django user plus a many-to-many
`profiles` field, modelled as the list of owned profiles' primary keys.
`isAuthenticated` mirrors `request.user.is_authenticated`. -/
structure CustomUser where
  id : Nat
  isAuthenticated : Bool
  profiles : List Nat
deriving DecidableEq, Repr

/-- Database state visible to the views: the `Profile` and `Movie`
tables (`Video` rows travel inside their movies). -/
structure DB where
  profiles : List Profile
  movies : List Movie
deriving DecidableEq, Repr

/-- Cleaned form data of `ProfileForm`: the two user-supplied fields. -/
structure FormData where
  name : String
  age_limit : String
deriving DecidableEq, Repr

/-- A bound form as re-rendered to the user: its data and its error
messages (field-level from validation, or the form-level message added
by `form.add_error(None, ...)`). -/
structure FormState where
  data : FormData
  errors : List String
deriving DecidableEq, Repr

/-- Template context handed to `render`, one constructor per context
shape occurring in `views.py`. -/
inductive Ctx
  | movieListOk (movies : List MovieRec) (profile_id : Nat)
  | movieListErr (error : String) (profile_id : Nat)
  | movieDetail (movie : Movie)
  | playMovie (videos : List (List (String × String)))
  | profileForm (form : FormState)
deriving DecidableEq, Repr

/-- An HTTP response produced by a view: a rendered template with its
context, a redirect to a named URL, or a `JsonResponse` (whose payload
here is the security-settings object: keys to optional booleans). -/
inductive Response
  | render (template : String) (context : Ctx)
  | redirect (target : String)
  | json (payload : List (String × Option Bool))
deriving DecidableEq, Repr

/-- `True` exactly on the response shapes "rendered page" and
"redirect" (a `JsonResponse` is neither). -/
def Response.isRenderOrRedirect : Response → Bool
  | .render _ _ => true
  | .redirect _ => true
  | .json _ => false

/-- Outcome of the single `requests.get(url, timeout=10)` call together
with `response.raise_for_status()` and `response.json()`:
* `requestError`: a `requests.RequestException` was raised — transport
  error, timeout, a non-2xx status raised by `raise_for_status`, or a
  body that fails JSON decoding (`requests.exceptions.JSONDecodeError`
  is a `RequestException`);
* `okObj`: 2xx response whose body decodes to a JSON object; `search`
  is the value of its `"Search"` key when present and a list;
* `okNonObj`: 2xx response whose body decodes to valid JSON that is not
  a JSON object (e.g. a JSON array), so `data.get('Search', [])` raises
  `AttributeError`, which is not a `RequestException`. -/
inductive FetchResult
  | requestError (msg : String)
  | okObj (search : Option (List MovieRec))
  | okNonObj
deriving DecidableEq, Repr

/-- The dict produced for one row by `movie.video.values()`: the stored
field values of the `Video`, flattened into a plain record. -/
def Video.values (v : Video) : List (String × String) :=
  [("id", toString v.id), ("title", v.title), ("file", v.file)]

/-- `MovieList.get` (`views.py` lines 113-148), for an authenticated
request.  Mirrors the nested try/except:
* `Profile.objects.get(uuid=profile_id)` raising `Profile.DoesNotExist`
  is the `find?` = `none` branch: warning log, redirect;
* `profile not in request.user.profiles.all()`: redirect, and the OMDB
  call is never reached (outbound request count 0);
* inner try: `requests.RequestException` → error log and the degraded
  render; a decoded non-object body → `AttributeError` at
  `data.get('Search', [])`, uncaught by the inner handler, caught by the
  outer `except Exception` → error log, redirect.
Returns (response, log records, number of outbound OMDB requests). -/
def MovieList.get (db : DB) (user : CustomUser) (profile_id : Nat)
    (fetch : FetchResult) : Response × List LogEvent × Nat :=
  match db.profiles.find? (fun p => p.uuid == profile_id) with
  | none =>
      (.redirect "netflixapp:profile-list",
       [⟨.warning, "Attempted to access non-existent profile: " ++ toString profile_id⟩], 0)
  | some profile =>
      if user.profiles.contains profile.id then
        match fetch with
        | .requestError msg =>
            (.render "movielist.html"
               (.movieListErr "Unable to fetch movies at this time." profile_id),
             [⟨.error, "OMDB API error: " ++ msg⟩], 1)
        | .okObj search =>
            (.render "movielist.html" (.movieListOk (search.getD []) profile_id), [], 1)
        | .okNonObj =>
            (.redirect "netflixapp:profile-list",
             [⟨.error,
               "Unexpected error in MovieList view: 'list' object has no attribute 'get'"⟩], 1)
      else
        (.redirect "netflixapp:profile-list", [], 0)

/-- The `login_required`-decorated dispatch of `MovieList`:
unauthenticated requests are redirected to the login URL. -/
def MovieList.dispatch (db : DB) (user : CustomUser) (profile_id : Nat)
    (fetch : FetchResult) : Response × List LogEvent × Nat :=
  if user.isAuthenticated then MovieList.get db user profile_id fetch
  else (.redirect "login", [], 0)

/-- `MovieDetail.get` (`views.py` lines 169-182), for an authenticated
request.  `unexpected = some e` models an exception other than
`Movie.DoesNotExist` raised inside the try body (e.g. a database error),
which the `except Exception` clause turns into an error log and a
redirect. -/
def MovieDetail.get (db : DB) (user : CustomUser) (movie_id : Nat)
    (unexpected : Option String) : Response × List LogEvent :=
  match unexpected with
  | some e =>
      (.redirect "netflixapp:profile-list",
       [⟨.error, "Error in MovieDetail view: " ++ e⟩])
  | none =>
      match db.movies.find? (fun m => m.uuid == movie_id) with
      | some movie => (.render "moviedetail.html" (.movieDetail movie), [])
      | none =>
          (.redirect "netflixapp:profile-list",
           [⟨.warning, "Attempted to access non-existent movie: " ++ toString movie_id⟩])

/-- The `login_required`-decorated dispatch of `MovieDetail`. -/
def MovieDetail.dispatch (db : DB) (user : CustomUser) (movie_id : Nat)
    (unexpected : Option String) : Response × List LogEvent :=
  if user.isAuthenticated then MovieDetail.get db user movie_id unexpected
  else (.redirect "login", [])

/-- `PlayMovie.get` (`views.py` lines 207-221), for an authenticated
request.  On success it renders `list(movie.video.values())`: one
flattened record per attached `Video`, in storage order.  `unexpected`
is as in `MovieDetail.get`. -/
def PlayMovie.get (db : DB) (user : CustomUser) (movie_id : Nat)
    (unexpected : Option String) : Response × List LogEvent :=
  match unexpected with
  | some e =>
      (.redirect "netflixapp:profile-list",
       [⟨.error, "Error in PlayMovie view: " ++ e⟩])
  | none =>
      match db.movies.find? (fun m => m.uuid == movie_id) with
      | some movie =>
          (.render "playmovie.html" (.playMovie (movie.video.map Video.values)), [])
      | none =>
          (.redirect "netflixapp:profile-list",
           [⟨.warning, "Attempted to play non-existent movie: " ++ toString movie_id⟩])

/-- The `login_required`-decorated dispatch of `PlayMovie`. -/
def PlayMovie.dispatch (db : DB) (user : CustomUser) (movie_id : Nat)
    (unexpected : Option String) : Response × List LogEvent :=
  if user.isAuthenticated then PlayMovie.get db user movie_id unexpected
  else (.redirect "login", [])

/-- Modelled from the spec: `ProfileForm` lives in the repository's
`forms.py`, which is not under `src/`.  Validation follows the spec's
"form fields \x7bname: string ≤200 chars, age-category: enum\x7bAll, Kids\x7d\x7d.
Validation: required fields, enum membership": the name is required and
at most 200 characters, the age category must be one of the two enum
values. -/
def ProfileForm.is_valid (fd : FormData) : Bool :=
  fd.name != "" && decide (fd.name.length ≤ 200) &&
    (fd.age_limit == "All" || fd.age_limit == "Kids")

/-- Modelled from the spec: the field-level error messages a failing
validation attaches to the form (`forms.py` is not under `src/`). -/
def ProfileForm.fieldErrors (fd : FormData) : List String :=
  (if fd.name == "" then ["name: This field is required."]
   else if decide (200 < fd.name.length) then
     ["name: Ensure this value has at most 200 characters."]
   else []) ++
  (if fd.age_limit == "All" || fd.age_limit == "Kids" then []
   else ["age_limit: Select a valid choice."])

/-- `ProfileCreate.post` (`views.py` lines 69-84), for an authenticated
request.  `newId` / `newUuid` are the primary key and UUID the server
assigns to a freshly created profile; `createRaises = some e` models
`Profile.objects.create(**form.cleaned_data)` raising an exception.
Returns (response, new database state, new user state, log records):
* invalid form: re-render the form with its validation errors, nothing
  persisted;
* valid form, create raises: error log, form-level error message added
  (`form.add_error(None, ...)`), form re-rendered, nothing persisted —
  `request.user.profiles.add(profile)` is only reached after `create`
  returned;
* valid form, create succeeds: the profile row is inserted, attached to
  the user's profile set, and the response redirects to profile-list. -/
def ProfileCreate.post (db : DB) (user : CustomUser) (fd : FormData)
    (newId : Nat) (newUuid : Nat) (createRaises : Option String) :
    Response × DB × CustomUser × List LogEvent :=
  if ProfileForm.is_valid fd then
    match createRaises with
    | some e =>
        (.render "profilecreate.html"
           (.profileForm ⟨fd, ["An error occurred while creating the profile."]⟩),
         db, user, [⟨.error, "Error creating profile: " ++ e⟩])
    | none =>
        let profile : Profile := ⟨newId, fd.name, fd.age_limit, newUuid⟩
        (.redirect "netflixapp:profile-list",
         { db with profiles := db.profiles ++ [profile] },
         { user with profiles := user.profiles ++ [newId] }, [])
  else
    (.render "profilecreate.html" (.profileForm ⟨fd, ProfileForm.fieldErrors fd⟩),
     db, user, [])

/-- The `login_required`-decorated dispatch of `ProfileCreate` (POST). -/
def ProfileCreate.dispatchPost (db : DB) (user : CustomUser) (fd : FormData)
    (newId : Nat) (newUuid : Nat) (createRaises : Option String) :
    Response × DB × CustomUser × List LogEvent :=
  if user.isAuthenticated then
    ProfileCreate.post db user fd newId newUuid createRaises
  else (.redirect "login", db, user, [])

/-- The four security flags `debug_settings` reads from Django settings
via `getattr(settings, name, None)`. -/
structure Settings where
  SECURE_SSL_REDIRECT : Option Bool
  SESSION_COOKIE_SECURE : Option Bool
  CSRF_COOKIE_SECURE : Option Bool
  DEBUG : Option Bool
deriving DecidableEq, Repr

/-- `debug_settings` (`views.py` lines 223-232).  It is a plain function
view with no `login_required` decorator, so it takes the requesting user
but never consults it. -/
def debug_settings (s : Settings) (user : CustomUser) : Response :=
  .json [("SECURE_SSL_REDIRECT", s.SECURE_SSL_REDIRECT),
         ("SESSION_COOKIE_SECURE", s.SESSION_COOKIE_SECURE),
         ("CSRF_COOKIE_SECURE", s.CSRF_COOKIE_SECURE),
         ("DEBUG", s.DEBUG)]

/-- Replace a movie's age category, leaving every other field alone
(used to state age-category noninterference). -/
def setAgeLimit (a : String) (m : Movie) : Movie :=
  { m with age_limit := a }

/-- Concrete sample data for witnesses and counterexamples. -/
def sampleVideo1 : Video := ⟨1, "clip-one", "movies/clip-one.mp4"⟩

def sampleVideo2 : Video := ⟨2, "clip-two", "movies/clip-two.mp4"⟩

def sampleMovie : Movie :=
  ⟨1, "Sample Movie", some "a sample", 21, "single",
   [sampleVideo1, sampleVideo2], "covers/sample.jpg", "All"⟩

def sampleProfile : Profile := ⟨1, "Kids Room", "Kids", 11⟩

def sampleDB : DB := ⟨[sampleProfile], [sampleMovie]⟩

def sampleUser : CustomUser := ⟨1, true, [1]⟩

/-- A second authenticated account owning no profiles. -/
def otherUser : CustomUser := ⟨2, true, []⟩

/-- `find?` on a movie list mapped through `setAgeLimit` finds the mapped
movie at the same position: `setAgeLimit` preserves the `uuid` the
predicate inspects. -/
theorem find?_setAgeLimit (movies : List Movie) (a : String) (mid : Nat) :
    (movies.map (setAgeLimit a)).find? (fun q => q.uuid == mid) =
      (movies.find? (fun q => q.uuid == mid)).map (setAgeLimit a) := by
  induction movies with
  | nil => rfl
  | cons h t ih =>
    by_cases hu : h.uuid == mid
    · simp [List.find?, setAgeLimit, hu]
    · simp only [List.map_cons, List.find?, setAgeLimit] at *
      simp only [Bool.not_eq_true] at hu
      rw [hu]
      exact ih

/-- Claim C1 as stated is false on the code: with an authenticated
account that owns the requested profile, a fetch outcome whose body is
valid JSON but not a JSON object (a malformed response body) makes
`MovieList.get` redirect to profile listing — the `AttributeError` from
`data.get('Search', [])` escapes the inner `except requests.RequestException`
handler — instead of rendering the movie-list page with the generic
error message. -/
theorem C1_counterexample :
    MovieList.dispatch sampleDB sampleUser 11 .okNonObj =
      (.redirect "netflixapp:profile-list",
       [⟨.error, "Unexpected error in MovieList view: 'list' object has no attribute 'get'"⟩],
       1) := rfl

/-- Claim C1 (amended): for an authenticated request whose profile
exists and is owned, every fetch outcome that raises a
`requests.RequestException` — transport error, timeout, non-2xx status
via `raise_for_status`, or a body that fails JSON decoding — is caught
and the movie-list page is rendered with the generic 'unable to fetch
movies' message and the requested profile UUID (no redirect); a 2xx body
that decodes to valid JSON that is not a JSON object instead falls
through to the catch-all handler, which logs an error and redirects to
Profile Listing. -/
theorem C1_amended (db : DB) (user : CustomUser) (pid : Nat) (p : Profile)
    (msg : String)
    (hauth : user.isAuthenticated = true)
    (hfind : db.profiles.find? (fun q => q.uuid == pid) = some p)
    (hown : user.profiles.contains p.id = true) :
    MovieList.dispatch db user pid (.requestError msg) =
      (.render "movielist.html"
         (.movieListErr "Unable to fetch movies at this time." pid),
       [⟨.error, "OMDB API error: " ++ msg⟩], 1) ∧
    MovieList.dispatch db user pid .okNonObj =
      (.redirect "netflixapp:profile-list",
       [⟨.error, "Unexpected error in MovieList view: 'list' object has no attribute 'get'"⟩],
       1) := by
  unfold MovieList.dispatch MovieList.get
  rw [hauth, hfind]
  dsimp only
  rw [hown]
  simp

/-- Witness for C1_amended at concrete inputs. -/
theorem C1_witness :
    MovieList.dispatch sampleDB sampleUser 11 (.requestError "timed out") =
      (.render "movielist.html"
         (.movieListErr "Unable to fetch movies at this time." 11),
       [⟨.error, "OMDB API error: " ++ "timed out"⟩], 1) ∧
    MovieList.dispatch sampleDB sampleUser 11 .okNonObj =
      (.redirect "netflixapp:profile-list",
       [⟨.error, "Unexpected error in MovieList view: 'list' object has no attribute 'get'"⟩],
       1) :=
  C1_amended sampleDB sampleUser 11 sampleProfile "timed out" rfl rfl rfl

/-- Claim C2: for an authenticated request to Movie List whose profile
UUID resolves to an existing profile not in the requesting account's
owned-profile set, the response is a redirect to Profile Listing, no log
is written, and — whatever the would-be fetch outcome — zero outbound
requests to the metadata provider are issued. -/
theorem C2 (db : DB) (user : CustomUser) (pid : Nat) (p : Profile)
    (fetch : FetchResult)
    (hauth : user.isAuthenticated = true)
    (hfind : db.profiles.find? (fun q => q.uuid == pid) = some p)
    (hnotown : user.profiles.contains p.id = false) :
    MovieList.dispatch db user pid fetch =
      (.redirect "netflixapp:profile-list", [], 0) := by
  unfold MovieList.dispatch MovieList.get
  rw [hauth, hfind]
  dsimp only
  rw [hnotown]
  simp

/-- Witness for C2: `otherUser` owns no profiles, profile 11 exists. -/
theorem C2_witness :
    MovieList.dispatch sampleDB otherUser 11 (.okObj none) =
      (.redirect "netflixapp:profile-list", [], 0) :=
  C2 sampleDB otherUser 11 sampleProfile (.okObj none) rfl rfl rfl

/-- Claim C8: a single invocation of Movie List issues at most one
outbound request to the metadata provider, on every path (including the
unauthenticated redirect and every failure path). -/
theorem C8 (db : DB) (user : CustomUser) (pid : Nat) (fetch : FetchResult) :
    (MovieList.dispatch db user pid fetch).2.2 ≤ 1 ∧
    (MovieList.get db user pid fetch).2.2 ≤ 1 := by
  have h : ∀ f : FetchResult, (MovieList.get db user pid f).2.2 ≤ 1 := by
    intro f
    unfold MovieList.get
    cases db.profiles.find? (fun p => p.uuid == pid) with
    | none => simp
    | some p =>
      dsimp only
      cases hc : user.profiles.contains p.id
      · simp
      · cases f <;> simp
  refine ⟨?_, h fetch⟩
  unfold MovieList.dispatch
  by_cases ha : user.isAuthenticated
  · simpa [ha] using h fetch
  · simp [ha]

/-- Claim C3: in profile creation, a submission that fails validation is
answered by re-rendering the form with its validation errors and nothing
changes; a valid submission whose `Profile.objects.create` call raises is
answered by re-rendering the form with the generic form-level error
message, an error log, and nothing changes; and whenever the requesting
account's profile set did change, creation succeeded first and the new
profile row is in the table. -/
theorem C3 (db : DB) (user : CustomUser) (fd fd2 : FormData)
    (newId newUuid : Nat) (e : String) (cr : Option String)
    (hauth : user.isAuthenticated = true)
    (hinvalid : ProfileForm.is_valid fd = false)
    (hvalid : ProfileForm.is_valid fd2 = true) :
    ProfileCreate.dispatchPost db user fd newId newUuid cr =
      (.render "profilecreate.html"
         (.profileForm ⟨fd, ProfileForm.fieldErrors fd⟩), db, user, []) ∧
    ProfileCreate.dispatchPost db user fd2 newId newUuid (some e) =
      (.render "profilecreate.html"
         (.profileForm ⟨fd2, ["An error occurred while creating the profile."]⟩),
       db, user, [⟨.error, "Error creating profile: " ++ e⟩]) ∧
    ((ProfileCreate.dispatchPost db user fd2 newId newUuid cr).2.2.1 ≠ user →
      cr = none ∧
      (ProfileCreate.dispatchPost db user fd2 newId newUuid cr).2.1.profiles =
        db.profiles ++ [⟨newId, fd2.name, fd2.age_limit, newUuid⟩]) := by
  refine ⟨?_, ?_, ?_⟩
  · unfold ProfileCreate.dispatchPost ProfileCreate.post
    rw [hauth, hinvalid]
    simp
  · unfold ProfileCreate.dispatchPost ProfileCreate.post
    rw [hauth, hvalid]
    simp
  · intro hne
    cases cr with
    | some e2 =>
      exfalso
      apply hne
      unfold ProfileCreate.dispatchPost ProfileCreate.post
      rw [hauth, hvalid]
      rfl
    | none =>
      refine ⟨rfl, ?_⟩
      unfold ProfileCreate.dispatchPost ProfileCreate.post
      rw [hauth, hvalid]
      rfl

/-- Witness for C3 at concrete inputs: an empty name fails validation,
"Kids Room"/"Kids" passes it. -/
theorem C3_witness :
    ProfileCreate.dispatchPost sampleDB sampleUser ⟨"", "All"⟩ 7 77 none =
      (.render "profilecreate.html"
         (.profileForm ⟨⟨"", "All"⟩, ProfileForm.fieldErrors ⟨"", "All"⟩⟩),
       sampleDB, sampleUser, []) ∧
    ProfileCreate.dispatchPost sampleDB sampleUser ⟨"Kids Room", "Kids"⟩ 7 77 (some "db down") =
      (.render "profilecreate.html"
         (.profileForm ⟨⟨"Kids Room", "Kids"⟩,
            ["An error occurred while creating the profile."]⟩),
       sampleDB, sampleUser,
       [⟨.error, "Error creating profile: " ++ "db down"⟩]) :=
  ⟨(C3 sampleDB sampleUser ⟨"", "All"⟩ ⟨"Kids Room", "Kids"⟩ 7 77 "db down" none
      rfl rfl rfl).1,
   (C3 sampleDB sampleUser ⟨"", "All"⟩ ⟨"Kids Room", "Kids"⟩ 7 77 "db down" none
      rfl rfl rfl).2.1⟩

/-- Claim C4: for authenticated requests, a Profile UUID matching no
stored profile makes Movie List redirect to Profile Listing with exactly
one log record, a warning, and no outbound request; a Title UUID
matching no stored movie makes Title Detail and Playback each redirect
to Profile Listing with exactly one log record, a warning. -/
theorem C4 (db : DB) (user : CustomUser) (pid mid : Nat) (fetch : FetchResult)
    (hauth : user.isAuthenticated = true)
    (hp : db.profiles.find? (fun q => q.uuid == pid) = none)
    (hm : db.movies.find? (fun q => q.uuid == mid) = none) :
    MovieList.dispatch db user pid fetch =
      (.redirect "netflixapp:profile-list",
       [⟨.warning, "Attempted to access non-existent profile: " ++ toString pid⟩], 0) ∧
    MovieDetail.dispatch db user mid none =
      (.redirect "netflixapp:profile-list",
       [⟨.warning, "Attempted to access non-existent movie: " ++ toString mid⟩]) ∧
    PlayMovie.dispatch db user mid none =
      (.redirect "netflixapp:profile-list",
       [⟨.warning, "Attempted to play non-existent movie: " ++ toString mid⟩]) := by
  refine ⟨?_, ?_, ?_⟩
  · unfold MovieList.dispatch MovieList.get
    rw [hauth, hp]
    rfl
  · unfold MovieDetail.dispatch MovieDetail.get
    rw [hauth]
    dsimp only
    rw [hm]
    rfl
  · unfold PlayMovie.dispatch PlayMovie.get
    rw [hauth]
    dsimp only
    rw [hm]
    rfl

/-- Witness for C4: UUID 99 matches neither the sample profile nor the
sample movie. -/
theorem C4_witness :
    MovieList.dispatch sampleDB sampleUser 99 (.okObj none) =
      (.redirect "netflixapp:profile-list",
       [⟨.warning, "Attempted to access non-existent profile: " ++ toString 99⟩], 0) ∧
    MovieDetail.dispatch sampleDB sampleUser 99 none =
      (.redirect "netflixapp:profile-list",
       [⟨.warning, "Attempted to access non-existent movie: " ++ toString 99⟩]) ∧
    PlayMovie.dispatch sampleDB sampleUser 99 none =
      (.redirect "netflixapp:profile-list",
       [⟨.warning, "Attempted to play non-existent movie: " ++ toString 99⟩]) :=
  C4 sampleDB sampleUser 99 99 (.okObj none) rfl rfl rfl

/-- `MovieList.get` always answers with a rendered page or a redirect. -/
theorem movieListGet_total (db : DB) (user : CustomUser) (pid : Nat)
    (fetch : FetchResult) :
    (MovieList.get db user pid fetch).1.isRenderOrRedirect = true := by
  unfold MovieList.get
  cases db.profiles.find? (fun p => p.uuid == pid) with
  | none => rfl
  | some p =>
    dsimp only
    cases user.profiles.contains p.id
    · simp [Response.isRenderOrRedirect]
    · cases fetch <;> simp [Response.isRenderOrRedirect]

/-- `MovieDetail.get` always answers with a rendered page or a redirect. -/
theorem movieDetailGet_total (db : DB) (user : CustomUser) (mid : Nat)
    (unexpected : Option String) :
    (MovieDetail.get db user mid unexpected).1.isRenderOrRedirect = true := by
  unfold MovieDetail.get
  cases unexpected with
  | some e => rfl
  | none =>
    dsimp only
    cases db.movies.find? (fun m => m.uuid == mid) <;> rfl

/-- `PlayMovie.get` always answers with a rendered page or a redirect. -/
theorem playMovieGet_total (db : DB) (user : CustomUser) (mid : Nat)
    (unexpected : Option String) :
    (PlayMovie.get db user mid unexpected).1.isRenderOrRedirect = true := by
  unfold PlayMovie.get
  cases unexpected with
  | some e => rfl
  | none =>
    dsimp only
    cases db.movies.find? (fun m => m.uuid == mid) <;> rfl

/-- Claim C5: authenticated requests to Movie List, Title Detail and
Playback always resolve to a rendered page or a redirect — no exception
escapes — and the unexpected-failure paths (an uncaught-by-name
exception inside the try body, such as the `AttributeError` from a
non-object OMDB body) resolve to a redirect to Profile Listing after an
error-level log. -/
theorem C5 (db db2 : DB) (user user2 : CustomUser) (pid pid2 mid : Nat)
    (fetch : FetchResult) (unexpected : Option String) (e : String) (p : Profile)
    (hauth : user.isAuthenticated = true)
    (hauth2 : user2.isAuthenticated = true)
    (hfind : db2.profiles.find? (fun q => q.uuid == pid2) = some p)
    (hown : user2.profiles.contains p.id = true) :
    (MovieList.dispatch db user pid fetch).1.isRenderOrRedirect = true ∧
    (MovieDetail.dispatch db user mid unexpected).1.isRenderOrRedirect = true ∧
    (PlayMovie.dispatch db user mid unexpected).1.isRenderOrRedirect = true ∧
    MovieList.dispatch db2 user2 pid2 .okNonObj =
      (.redirect "netflixapp:profile-list",
       [⟨.error, "Unexpected error in MovieList view: 'list' object has no attribute 'get'"⟩],
       1) ∧
    MovieDetail.dispatch db user mid (some e) =
      (.redirect "netflixapp:profile-list",
       [⟨.error, "Error in MovieDetail view: " ++ e⟩]) ∧
    PlayMovie.dispatch db user mid (some e) =
      (.redirect "netflixapp:profile-list",
       [⟨.error, "Error in PlayMovie view: " ++ e⟩]) := by
  refine ⟨?_, ?_, ?_, ?_, ?_, ?_⟩
  · unfold MovieList.dispatch
    rw [hauth]
    simpa using movieListGet_total db user pid fetch
  · unfold MovieDetail.dispatch
    rw [hauth]
    simpa using movieDetailGet_total db user mid unexpected
  · unfold PlayMovie.dispatch
    rw [hauth]
    simpa using playMovieGet_total db user mid unexpected
  · unfold MovieList.dispatch MovieList.get
    rw [hauth2, hfind]
    dsimp only
    rw [hown]
    simp
  · unfold MovieDetail.dispatch MovieDetail.get
    rw [hauth]
    rfl
  · unfold PlayMovie.dispatch PlayMovie.get
    rw [hauth]
    rfl

/-- Witness for C5 at concrete inputs. -/
theorem C5_witness :
    (MovieList.dispatch sampleDB sampleUser 11 (.okObj none)).1.isRenderOrRedirect = true ∧
    MovieList.dispatch sampleDB sampleUser 11 .okNonObj =
      (.redirect "netflixapp:profile-list",
       [⟨.error, "Unexpected error in MovieList view: 'list' object has no attribute 'get'"⟩],
       1) ∧
    MovieDetail.dispatch sampleDB sampleUser 21 (some "db down") =
      (.redirect "netflixapp:profile-list",
       [⟨.error, "Error in MovieDetail view: " ++ "db down"⟩]) :=
  ⟨(C5 sampleDB sampleDB sampleUser sampleUser 11 11 21 (.okObj none) none
      "db down" sampleProfile rfl rfl rfl rfl).1,
   (C5 sampleDB sampleDB sampleUser sampleUser 11 11 21 (.okObj none) none
      "db down" sampleProfile rfl rfl rfl rfl).2.2.2.1,
   (C5 sampleDB sampleDB sampleUser sampleUser 11 11 21 (.okObj none) none
      "db down" sampleProfile rfl rfl rfl rfl).2.2.2.2.1⟩

/-- Claim C6: for an authenticated playback request whose Title exists,
the rendered collection is exactly the attached Video assets' flattened
stored field values, one record per attached Video in storage order, so
its length equals the number of attached Videos. -/
theorem C6 (db : DB) (user : CustomUser) (mid : Nat) (m : Movie)
    (hauth : user.isAuthenticated = true)
    (hfind : db.movies.find? (fun q => q.uuid == mid) = some m) :
    PlayMovie.dispatch db user mid none =
      (.render "playmovie.html" (.playMovie (m.video.map Video.values)), []) ∧
    (m.video.map Video.values).length = m.video.length := by
  constructor
  · unfold PlayMovie.dispatch PlayMovie.get
    rw [hauth]
    dsimp only
    rw [hfind]
    rfl
  · exact List.length_map m.video Video.values

/-- Witness for C6: the sample movie has exactly two attached videos and
playback renders a two-element collection. -/
theorem C6_witness :
    sampleMovie.video.length = 2 ∧
    (PlayMovie.dispatch sampleDB sampleUser 21 none =
      (.render "playmovie.html" (.playMovie (sampleMovie.video.map Video.values)), []) ∧
     (sampleMovie.video.map Video.values).length = sampleMovie.video.length) :=
  ⟨rfl, C6 sampleDB sampleUser 21 sampleMovie rfl rfl⟩

/-- Claim C7: an authenticated profile-creation submission whose name
exceeds 200 characters or whose age category is outside \x7bAll, Kids\x7d
fails validation: the form is re-rendered with its validation errors and
neither the profile table nor the requesting account's owned-profile set
changes, whatever the persistence layer would have done. -/
theorem C7 (db : DB) (user : CustomUser) (fd : FormData)
    (newId newUuid : Nat) (cr : Option String)
    (hauth : user.isAuthenticated = true)
    (hbad : 200 < fd.name.length ∨ (fd.age_limit ≠ "All" ∧ fd.age_limit ≠ "Kids")) :
    ProfileCreate.dispatchPost db user fd newId newUuid cr =
      (.render "profilecreate.html"
         (.profileForm ⟨fd, ProfileForm.fieldErrors fd⟩), db, user, []) := by
  have hv : ProfileForm.is_valid fd = false := by
    unfold ProfileForm.is_valid
    rcases hbad with h | ⟨h1, h2⟩
    · have hd : decide (fd.name.length ≤ 200) = false :=
        decide_eq_false (Nat.not_le.mpr h)
      rw [hd]
      simp
    · have e1 : (fd.age_limit == "All") = false := by
        simp [h1]
      have e2 : (fd.age_limit == "Kids") = false := by
        simp [h2]
      rw [e1, e2]
      simp
  unfold ProfileCreate.dispatchPost ProfileCreate.post
  rw [hauth, hv]
  simp

/-- Witness for C7: age category "Teen" is outside the enum. -/
theorem C7_witness :
    ProfileCreate.dispatchPost sampleDB sampleUser ⟨"Teen Room", "Teen"⟩ 7 77 none =
      (.render "profilecreate.html"
         (.profileForm ⟨⟨"Teen Room", "Teen"⟩, ProfileForm.fieldErrors ⟨"Teen Room", "Teen"⟩⟩),
       sampleDB, sampleUser, []) :=
  C7 sampleDB sampleUser ⟨"Teen Room", "Teen"⟩ 7 77 none rfl
    (Or.inr ⟨by decide, by decide⟩)

/-- Claim C10: Title Detail and Playback perform no ownership or
age-category check — for a Title that exists, their responses to an
authenticated request are identical for any two authenticated accounts,
identical under any replacement of the stored profiles (and hence of the
profiles' age categories and of any account's owned-profile set), the
playback response is identical under any rewrite of every movie's age
category, and both operations render (rather than redirect) for the
resolved Title, whatever age category it carries. -/
theorem C10 (db : DB) (user1 user2 : CustomUser) (mid : Nat) (a : String)
    (unexpected : Option String) (ps : List Profile) (m : Movie)
    (hauth1 : user1.isAuthenticated = true)
    (hauth2 : user2.isAuthenticated = true)
    (hfind : db.movies.find? (fun q => q.uuid == mid) = some m) :
    MovieDetail.dispatch db user1 mid unexpected =
      MovieDetail.dispatch db user2 mid unexpected ∧
    PlayMovie.dispatch db user1 mid unexpected =
      PlayMovie.dispatch db user2 mid unexpected ∧
    MovieDetail.dispatch ⟨ps, db.movies⟩ user1 mid unexpected =
      MovieDetail.dispatch db user1 mid unexpected ∧
    PlayMovie.dispatch ⟨ps, db.movies⟩ user1 mid unexpected =
      PlayMovie.dispatch db user1 mid unexpected ∧
    PlayMovie.dispatch ⟨db.profiles, db.movies.map (setAgeLimit a)⟩ user1 mid unexpected =
      PlayMovie.dispatch db user1 mid unexpected ∧
    (MovieDetail.dispatch db user1 mid none).1 =
      .render "moviedetail.html" (.movieDetail m) ∧
    (MovieDetail.dispatch ⟨db.profiles, db.movies.map (setAgeLimit a)⟩ user1 mid none).1 =
      .render "moviedetail.html" (.movieDetail (setAgeLimit a m)) ∧
    (PlayMovie.dispatch db user1 mid none).1 =
      .render "playmovie.html" (.playMovie (m.video.map Video.values)) := by
  refine ⟨?_, ?_, ?_, ?_, ?_, ?_, ?_, ?_⟩
  · unfold MovieDetail.dispatch
    rw [hauth1, hauth2]
    rfl
  · unfold PlayMovie.dispatch
    rw [hauth1, hauth2]
    rfl
  · unfold MovieDetail.dispatch
    rw [hauth1]
    rfl
  · unfold PlayMovie.dispatch
    rw [hauth1]
    rfl
  · unfold PlayMovie.dispatch PlayMovie.get
    rw [hauth1]
    cases unexpected with
    | some e => rfl
    | none =>
      dsimp only
      rw [find?_setAgeLimit, hfind]
      rfl
  · unfold MovieDetail.dispatch MovieDetail.get
    rw [hauth1]
    dsimp only
    rw [hfind]
    rfl
  · unfold MovieDetail.dispatch MovieDetail.get
    rw [hauth1]
    dsimp only
    rw [find?_setAgeLimit, hfind]
    rfl
  · unfold PlayMovie.dispatch PlayMovie.get
    rw [hauth1]
    dsimp only
    rw [hfind]
    rfl

/-- Witness for C10 at concrete inputs: `sampleUser` and `otherUser`
own different profile sets yet get identical detail and playback
responses, and the sample movie renders in both operations. -/
theorem C10_witness :
    MovieDetail.dispatch sampleDB sampleUser 21 none =
      MovieDetail.dispatch sampleDB otherUser 21 none ∧
    PlayMovie.dispatch sampleDB sampleUser 21 none =
      PlayMovie.dispatch sampleDB otherUser 21 none ∧
    (MovieDetail.dispatch sampleDB sampleUser 21 none).1 =
      .render "moviedetail.html" (.movieDetail sampleMovie) ∧
    (PlayMovie.dispatch sampleDB sampleUser 21 none).1 =
      .render "playmovie.html" (.playMovie (sampleMovie.video.map Video.values)) :=
  ⟨(C10 sampleDB sampleUser otherUser 21 "Kids" none [] sampleMovie rfl rfl rfl).1,
   (C10 sampleDB sampleUser otherUser 21 "Kids" none [] sampleMovie rfl rfl rfl).2.1,
   (C10 sampleDB sampleUser otherUser 21 "Kids" none [] sampleMovie rfl rfl rfl).2.2.2.2.2.1,
   (C10 sampleDB sampleUser otherUser 21 "Kids" none [] sampleMovie rfl rfl rfl).2.2.2.2.2.2.2⟩

/-- Claim C9: `debug_settings` answers every request — from any user,
authenticated or not — with a JSON object holding exactly the four
configured security-flag values, and the response does not depend on the
requesting user in any way (no authentication guard). -/
theorem C9 (s : Settings) (u1 u2 : CustomUser) :
    debug_settings s u1 =
      .json [("SECURE_SSL_REDIRECT", s.SECURE_SSL_REDIRECT),
             ("SESSION_COOKIE_SECURE", s.SESSION_COOKIE_SECURE),
             ("CSRF_COOKIE_SECURE", s.CSRF_COOKIE_SECURE),
             ("DEBUG", s.DEBUG)] ∧
    debug_settings s u1 = debug_settings s u2 :=
  ⟨rfl, rfl⟩

end NetflixApp
